import Mathlib

/-!
Shallow embedding of `scripts/log_agent_activity.py` (Agent Activity Logger).

Modelling choices, stated once here:

* A JSON value is modelled by the inductive `Json`.  JSON numbers are
  restricted to integers: the tool itself only ever writes integer
  `issue_number` values and strings, and no claim depends on non-integer
  numerals.
* The log file is modelled at the granularity of its lines, each line by the
  result of `json.loads` on it: `none` for a line that raises
  `JSONDecodeError`, `some v` for a line that parses to the value `v`.  This
  is faithful because `json.loads` is a function of the line, and because
  `json.dumps(entry) + "\n"` always occupies exactly one line (`json.dumps`
  escapes newline characters) and parses back to the dumped object.
* The filesystem state visible to the tool is `FS`: whether the log
  directory exists, and the log file (absent, or a list of lines).
* `datetime.utcnow().isoformat() + "Z"` is an environment input; the
  resulting timestamp string is passed to `log_activity` as the argument
  `now`.
* Python's built-in `int()` applied to the CLI string argument is modelled
  by `pyIntOfString`: optional surrounding whitespace, optional sign, a
  non-empty ASCII digit run with single underscores allowed between digits.
  (Non-ASCII digits and non-ASCII whitespace are outside the model.)
* Raised Python exceptions are modelled by `Except PyErr`; `print` calls and
  exit codes are not modelled (no claim mentions them).
-/

/-- A JSON value, as produced by `json.loads` (numbers restricted to
integers; object fields in insertion order, later duplicate keys kept by
Python's dict semantics, see `jsonField`). -/
inductive Json where
  | null : Json
  | bool (b : Bool) : Json
  | num (n : Int) : Json
  | str (s : String) : Json
  | arr (elems : List Json) : Json
  | obj (kvs : List (String × Json)) : Json

/-- The Python exceptions this tool can raise (besides I/O errors, which are
outside the model). -/
inductive PyErr where
  | valueError : PyErr
  | attributeError : PyErr
deriving DecidableEq

/-- Whether a JSON value is an object (a Python `dict`). -/
def isObj : Json → Bool
  | .obj _ => true
  | _ => false

/-- The keys of a JSON object, in order (empty for non-objects). -/
def jsonKeys : Json → List String
  | .obj kvs => kvs.map (fun p => p.1)
  | _ => []

/-- Field lookup on a JSON value: for an object, the value of the key
(the last binding, matching Python's dict building where a duplicate key
overwrites); `none` for a missing key or a non-object. -/
def jsonField (v : Json) (k : String) : Option Json :=
  match v with
  | .obj kvs => (kvs.reverse.find? (fun p => p.1 == k)).map (fun p => p.2)
  | _ => none

/-- Python `entry.get(k)`: returns the field for a `dict`, raises
`AttributeError` on any other value. -/
def pyGet (v : Json) (k : String) : Except PyErr (Option Json) :=
  match v with
  | .obj _ => .ok (jsonField v k)
  | _ => .error .attributeError

/-- Python `==` between the result of `entry.get("issue_number")` and an
`int`: `None` (absent key) compares unequal; JSON integers compare by value;
JSON booleans compare as the ints 0 and 1 (Python `bool` is an `int`);
everything else compares unequal. -/
def pyEqOptInt (ov : Option Json) (n : Int) : Bool :=
  match ov with
  | some (.num a) => a == n
  | some (.bool b) => (if b then (1 : Int) else 0) == n
  | _ => false

/-- Python `==` between the result of `entry.get("agent_id")` and a `str`. -/
def pyEqOptStr (ov : Option Json) (a : String) : Bool :=
  match ov with
  | some (.str s) => s == a
  | _ => false

/-- Characters stripped by Python `int()` around a numeric string (ASCII
whitespace; non-ASCII whitespace is outside the model). -/
def isPySpace (c : Char) : Bool :=
  c == ' ' || c == '\t' || c == '\n' || c == '\r' || c == '\x0b' || c == '\x0c'

/-- Strip `isPySpace` characters from both ends of a character list. -/
def pyStrip (cs : List Char) : List Char :=
  ((cs.dropWhile isPySpace).reverse.dropWhile isPySpace).reverse

/-- Continuation of a Python integer digit run: digits, with a single
underscore allowed only between two digits. -/
def isPyDigitsRest : List Char → Bool
  | [] => true
  | ['_'] => false
  | '_' :: c :: cs => c.isDigit && isPyDigitsRest (c :: cs)
  | c :: cs => c.isDigit && isPyDigitsRest cs

/-- A valid Python integer digit run: non-empty, starts with a digit. -/
def isPyDigits : List Char → Bool
  | [] => false
  | c :: cs => c.isDigit && isPyDigitsRest cs

/-- Numeric value of a digit run, ignoring grouping underscores. -/
def pyDigitsToNat (cs : List Char) : Nat :=
  cs.foldl (fun a c => if c == '_' then a else a * 10 + (c.toNat - 48)) 0

/-- Python built-in `int()` on a string: `some` the value when the string is
integer-coercible, `none` when `int()` raises `ValueError`. -/
def pyIntOfString (s : String) : Option Int :=
  match pyStrip s.toList with
  | '+' :: rest => if isPyDigits rest then some (pyDigitsToNat rest) else none
  | '-' :: rest => if isPyDigits rest then some (-(pyDigitsToNat rest : Int)) else none
  | cs => if isPyDigits cs then some (pyDigitsToNat cs) else none

/-- The JSON object `log_activity` constructs and dumps (source lines
32-38): the five fields in source order. -/
def entryJson (now action : String) (n : Int) (agent_id details : String) : Json :=
  .obj [("timestamp", .str now), ("action", .str action),
        ("issue_number", .num n), ("agent_id", .str agent_id),
        ("details", .str details)]

/-- The filesystem state the tool touches: whether `logs/` exists, and the
log file (`none` when absent; otherwise the parse results of its lines). -/
structure FS where
  logDirExists : Bool
  logFile : Option (List (Option Json))

/-- `log_activity(action, issue_number, agent_id, details)` (source lines
25-45): ensure the log directory exists, build the entry — raising
`ValueError` if `int(issue_number)` fails — then append one dumped line and
return the entry.  `now` is the environment-supplied timestamp string. -/
def log_activity (fs : FS) (now action issue_number agent_id details : String) :
    FS × Except PyErr Json :=
  let fs1 : FS := { fs with logDirExists := true }
  match pyIntOfString issue_number with
  | none => (fs1, .error .valueError)
  | some n =>
    let entry := entryJson now action n agent_id details
    ({ fs1 with logFile := some ((fs1.logFile.getD []) ++ [some entry]) },
     .ok entry)

/-- Python slice `l[s:]` for an integer start `s`: a negative start counts
from the end and clamps at 0; a non-negative start clamps at the length. -/
def pySliceFrom (l : List α) (s : Int) : List α :=
  if s < 0 then l.drop ((l.length + s).toNat) else l.drop s.toNat

/-- `get_recent_activity(limit)` (source lines 47-63): empty when the file
is absent; otherwise take `lines[-limit:]` and keep the lines that parse,
in order. -/
def get_recent_activity (fs : FS) (limit : Int) : FS × List Json :=
  match fs.logFile with
  | none => (fs, [])
  | some lines => (fs, (pySliceFrom lines (-limit)).filterMap id)

/-- The loop of `get_activity_for_issue` (source lines 73-80): skip lines
that raise `JSONDecodeError`; on a parsed value call `.get` (which raises
`AttributeError` on a non-dict, uncaught by the `except`), keep the entry
when the field compares `==` to the issue number. -/
def scanIssue (n : Int) : List (Option Json) → Except PyErr (List Json)
  | [] => .ok []
  | none :: rest => scanIssue n rest
  | some v :: rest =>
    match pyGet v "issue_number" with
    | .error e => .error e
    | .ok ov =>
      match scanIssue n rest with
      | .error e => .error e
      | .ok tail => .ok (if pyEqOptInt ov n then v :: tail else tail)

/-- `get_activity_for_issue(issue_number)` (source lines 65-82), with the
argument already an integer (the claims quantify over integers `N`, and
`int(N)` is the identity on ints). -/
def get_activity_for_issue (fs : FS) (n : Int) : FS × Except PyErr (List Json) :=
  match fs.logFile with
  | none => (fs, .ok [])
  | some lines => (fs, scanIssue n lines)

/-- The loop of `get_activity_for_agent` (source lines 92-99). -/
def scanAgent (a : String) : List (Option Json) → Except PyErr (List Json)
  | [] => .ok []
  | none :: rest => scanAgent a rest
  | some v :: rest =>
    match pyGet v "agent_id" with
    | .error e => .error e
    | .ok ov =>
      match scanAgent a rest with
      | .error e => .error e
      | .ok tail => .ok (if pyEqOptStr ov a then v :: tail else tail)

/-- `get_activity_for_agent(agent_id)` (source lines 84-101). -/
def get_activity_for_agent (fs : FS) (a : String) : FS × Except PyErr (List Json) :=
  match fs.logFile with
  | none => (fs, .ok [])
  | some lines => (fs, scanAgent a lines)

/-- The `__main__` block (source lines 103-120): with fewer than three
`sys.argv` entries print usage and exit 1 (`.ok none`, nothing logged);
otherwise call `log_activity` with `agent_id` defaulting to `"unknown"` and
`details` to `""` when omitted. -/
def cliRun (fs : FS) (now : String) (argv : List String) :
    FS × Except PyErr (Option Json) :=
  if argv.length < 3 then (fs, .ok none)
  else
    let action := argv.getD 1 ""
    let issue_number := argv.getD 2 ""
    let agent_id := if argv.length > 3 then argv.getD 3 "" else "unknown"
    let details := if argv.length > 4 then argv.getD 4 "" else ""
    let r := log_activity fs now action issue_number agent_id details
    (r.1, r.2.map some)

/-- Spec-side description (§8 of the spec): the records of the file whose
`issue_number` field equals `N` (Python equality), in file order. -/
def recordsForIssueSpec (n : Int) (lines : List (Option Json)) : List Json :=
  (lines.filterMap id).filter (fun v => pyEqOptInt (jsonField v "issue_number") n)

/-- Spec-side description (§8 of the spec): the records of the file whose
`agent_id` field equals `A`, in file order. -/
def recordsForAgentSpec (a : String) (lines : List (Option Json)) : List Json :=
  (lines.filterMap id).filter (fun v => pyEqOptStr (jsonField v "agent_id") a)

/-! ### Helper lemmas -/

lemma pyGet_of_isObj (v : Json) (k : String) (h : isObj v = true) :
    pyGet v k = .ok (jsonField v k) := by
  cases v <;> first | rfl | simp [isObj] at h

lemma pySliceFrom_neg (l : List α) (limit : Int) (hl : 1 ≤ limit) :
    pySliceFrom l (-limit) = l.rtake limit.toNat := by
  have h0 : (-limit) < 0 := by omega
  simp only [pySliceFrom, if_pos h0, List.rtake]
  congr 1
  omega

lemma pySliceFrom_is_drop (l : List α) (s : Int) :
    ∃ k, pySliceFrom l s = l.drop k := by
  unfold pySliceFrom
  split
  · exact ⟨_, rfl⟩
  · exact ⟨_, rfl⟩

lemma filterMap_drop_suffix (f : α → Option β) (l : List α) (k : Nat) :
    (l.drop k).filterMap f <:+ l.filterMap f := by
  refine ⟨(l.take k).filterMap f, ?_⟩
  rw [← List.filterMap_append, List.take_append_drop]

lemma scanIssue_eq_spec (n : Int) (lines : List (Option Json))
    (h : ∀ v ∈ lines.filterMap id, isObj v = true) :
    scanIssue n lines = .ok (recordsForIssueSpec n lines) := by
  induction lines with
  | nil => rfl
  | cons hd tl ih =>
    cases hd with
    | none =>
      have htl : scanIssue n tl = .ok (recordsForIssueSpec n tl) :=
        ih (by intro w hw; exact h w (by simpa using hw))
      simpa [scanIssue, recordsForIssueSpec] using htl
    | some v =>
      have hv : isObj v = true := h v (by simp)
      have htl : scanIssue n tl = .ok (recordsForIssueSpec n tl) :=
        ih (by intro w hw; exact h w (by simp [hw]))
      simp only [scanIssue, pyGet_of_isObj v _ hv, htl]
      simp only [recordsForIssueSpec, List.filterMap_cons, id, List.filter_cons]

lemma scanAgent_eq_spec (a : String) (lines : List (Option Json))
    (h : ∀ v ∈ lines.filterMap id, isObj v = true) :
    scanAgent a lines = .ok (recordsForAgentSpec a lines) := by
  induction lines with
  | nil => rfl
  | cons hd tl ih =>
    cases hd with
    | none =>
      have htl : scanAgent a tl = .ok (recordsForAgentSpec a tl) :=
        ih (by intro w hw; exact h w (by simpa using hw))
      simpa [scanAgent, recordsForAgentSpec] using htl
    | some v =>
      have hv : isObj v = true := h v (by simp)
      have htl : scanAgent a tl = .ok (recordsForAgentSpec a tl) :=
        ih (by intro w hw; exact h w (by simp [hw]))
      simp only [scanAgent, pyGet_of_isObj v _ hv, htl]
      simp only [recordsForAgentSpec, List.filterMap_cons, id, List.filter_cons]

lemma recent_concat (dir : Bool) (L : List (Option Json)) (e : Json) (limit : Int)
    (hl : 1 ≤ limit) :
    (get_recent_activity ⟨dir, some (L ++ [some e])⟩ limit).2 ≠ [] ∧
    (get_recent_activity ⟨dir, some (L ++ [some e])⟩ limit).2.getLast? = some e := by
  obtain ⟨m, hm⟩ : ∃ m, limit.toNat = m + 1 := ⟨limit.toNat - 1, by omega⟩
  have h2 : pySliceFrom (L ++ [some e]) (-limit) = (L ++ [some e]).rtake limit.toNat :=
    pySliceFrom_neg _ _ hl
  simp only [get_recent_activity, h2, hm, List.rtake_concat_succ, List.filterMap_append]
  constructor
  · simp
  · simp [List.getLast?_concat]

/-! ### Claim theorems -/

/-- Claim C1: for every action, every integer-coercible issue number, every
agent id and details string, and every limit at least 1, calling
`log_activity` and then `get_recent_activity limit` on the resulting state
yields a non-empty sequence whose last element is exactly the record
`log_activity` returned. -/
theorem log_then_recent_last (fs : FS) (now action isn agent details : String)
    (n : Int) (limit : Int) (hn : pyIntOfString isn = some n) (hl : 1 ≤ limit) :
    (log_activity fs now action isn agent details).2
      = .ok (entryJson now action n agent details) ∧
    (get_recent_activity (log_activity fs now action isn agent details).1 limit).2 ≠ [] ∧
    (get_recent_activity (log_activity fs now action isn agent details).1 limit).2.getLast?
      = some (entryJson now action n agent details) := by
  have hlog : log_activity fs now action isn agent details
      = (⟨true, some ((fs.logFile.getD [])
            ++ [some (entryJson now action n agent details)])⟩,
         .ok (entryJson now action n agent details)) := by
    simp [log_activity, hn]
  rw [hlog]
  exact ⟨rfl, (recent_concat true _ _ limit hl).1, (recent_concat true _ _ limit hl).2⟩

/-- Claim C1 witness: a concrete run of `log_activity` followed by
`get_recent_activity 100`. -/
theorem log_then_recent_last_witness :
    (get_recent_activity (log_activity ⟨false, none⟩ "t" "claim" "22" "a" "d").1 100).2.getLast?
      = some (entryJson "t" "claim" 22 "a" "d") :=
  (log_then_recent_last ⟨false, none⟩ "t" "claim" "22" "a" "d" 22 100 (by decide)
    (by decide)).2.2

/-- Claim C2 counterexample: on a log file whose single line is the valid
JSON value `42` (not an object), `get_activity_for_issue 7` raises
`AttributeError` (`.get` on an `int`; only `JSONDecodeError` is caught)
instead of returning the record subsequence, which here would be empty. -/
theorem issue_query_nonobject_raises :
    (get_activity_for_issue ⟨true, some [some (.num 42)]⟩ 7).2 = .error .attributeError ∧
    (get_activity_for_issue ⟨true, some [some (.num 42)]⟩ 7).2
      ≠ .ok (recordsForIssueSpec 7 [some (.num 42)]) :=
  ⟨rfl, fun h => nomatch h⟩

/-- Claim C2 amended: for every log-file content all of whose parseable
lines are JSON objects, `get_activity_for_issue n` returns exactly the
subsequence of records whose `issue_number` field equals `n` (Python
equality), in file order. -/
theorem issue_query_eq_spec_of_objects (dir : Bool) (lines : List (Option Json))
    (n : Int) (h : ∀ v ∈ lines.filterMap id, isObj v = true) :
    (get_activity_for_issue ⟨dir, some lines⟩ n).2 = .ok (recordsForIssueSpec n lines) := by
  simpa [get_activity_for_issue] using scanIssue_eq_spec n lines h

/-- Claim C2 witness: a concrete file with two records (issues 22 and 9) and
one malformed line; the query for issue 22 returns exactly the first record. -/
theorem issue_query_eq_spec_of_objects_witness :
    (get_activity_for_issue ⟨true, some [some (entryJson "t" "claim" 22 "a" ""), none,
        some (entryJson "u" "done" 9 "b" "")]⟩ 22).2
      = .ok [entryJson "t" "claim" 22 "a" ""] :=
  (issue_query_eq_spec_of_objects true
    [some (entryJson "t" "claim" 22 "a" ""), none, some (entryJson "u" "done" 9 "b" "")]
    22 (by decide)).trans rfl

/-- Claim C3 counterexample: on a log file whose single line is the valid
JSON string `"oops"` (not an object), `get_activity_for_agent "agent-1"`
raises `AttributeError` instead of returning the record subsequence. -/
theorem agent_query_nonobject_raises :
    (get_activity_for_agent ⟨true, some [some (.str "oops")]⟩ "agent-1").2
      = .error .attributeError ∧
    (get_activity_for_agent ⟨true, some [some (.str "oops")]⟩ "agent-1").2
      ≠ .ok (recordsForAgentSpec "agent-1" [some (.str "oops")]) :=
  ⟨rfl, fun h => nomatch h⟩

/-- Claim C3 amended: for every log-file content all of whose parseable
lines are JSON objects, `get_activity_for_agent a` returns exactly the
subsequence of records whose `agent_id` field equals `a`, in file order. -/
theorem agent_query_eq_spec_of_objects (dir : Bool) (lines : List (Option Json))
    (a : String) (h : ∀ v ∈ lines.filterMap id, isObj v = true) :
    (get_activity_for_agent ⟨dir, some lines⟩ a).2 = .ok (recordsForAgentSpec a lines) := by
  simpa [get_activity_for_agent] using scanAgent_eq_spec a lines h

/-- Claim C3 witness: a concrete file with records by agents `a` and `b`;
the query for agent `a` returns exactly the two records by `a`, in order. -/
theorem agent_query_eq_spec_of_objects_witness :
    (get_activity_for_agent ⟨true, some [some (entryJson "t" "claim" 1 "a" ""),
        some (entryJson "u" "done" 2 "b" ""), some (entryJson "v" "merge" 3 "a" "x")]⟩ "a").2
      = .ok [entryJson "t" "claim" 1 "a" "", entryJson "v" "merge" 3 "a" "x"] :=
  (agent_query_eq_spec_of_objects true
    [some (entryJson "t" "claim" 1 "a" ""), some (entryJson "u" "done" 2 "b" ""),
     some (entryJson "v" "merge" 3 "a" "x")]
    "a" (by decide)).trans rfl

/-- Claim C4 counterexample.  First conjunct: with limit 0 the slice
`lines[-0:]` is the whole file, so `get_recent_activity 0` returns every
parseable record instead of the empty sequence the claim states.  Second
conjunct: the code slices raw lines before parsing, so with one record
followed by one malformed line and limit 1 it returns the empty sequence,
not the last `min(limit, k) = 1` parsed record the claim states. -/
theorem recent_zero_and_window_cex :
    (get_recent_activity ⟨true, some [some (.num 5)]⟩ 0).2 = [Json.num 5] ∧
    (get_recent_activity ⟨true, some [some (.num 6), none]⟩ 1).2 = [] :=
  ⟨rfl, rfl⟩

/-- Claim C4 amended: for limit ≥ 1, `get_recent_activity limit` returns
exactly the parseable records among the last `limit` lines of the file, in
file order — hence at most `limit` records, and a suffix of the full parsed
record sequence (malformed lines inside the window count toward the limit);
`get_recent_activity 0` returns all parseable records of the file. -/
theorem recent_limit_window (dir : Bool) (lines : List (Option Json)) (limit : Int) :
    (1 ≤ limit →
      (get_recent_activity ⟨dir, some lines⟩ limit).2
          = (lines.rtake limit.toNat).filterMap id ∧
      (get_recent_activity ⟨dir, some lines⟩ limit).2.length ≤ limit.toNat ∧
      (get_recent_activity ⟨dir, some lines⟩ limit).2 <:+ lines.filterMap id) ∧
    (get_recent_activity ⟨dir, some lines⟩ 0).2 = lines.filterMap id := by
  constructor
  · intro hl
    have h2 : pySliceFrom lines (-limit) = lines.rtake limit.toNat :=
      pySliceFrom_neg _ _ hl
    refine ⟨by simp [get_recent_activity, h2], ?_, ?_⟩
    · calc (get_recent_activity ⟨dir, some lines⟩ limit).2.length
          = ((lines.rtake limit.toNat).filterMap id).length := by
            simp [get_recent_activity, h2]
        _ ≤ (lines.rtake limit.toNat).length := List.length_filterMap_le _ _
        _ ≤ limit.toNat := by simp only [List.rtake, List.length_drop]; omega
    · simp only [get_recent_activity, h2, List.rtake]
      exact filterMap_drop_suffix id lines _
  · have h0 : pySliceFrom lines ((0 : Int)) = lines := by
      simp [pySliceFrom]
    simp [get_recent_activity, h0]

/-- Claim C4 witness: a concrete file with records 1 and 2 around a
malformed line; with limit 2 the result is a suffix of the parsed records,
and with limit 0 all records come back. -/
theorem recent_limit_window_witness :
    (get_recent_activity ⟨true, some [some (Json.num 1), none, some (Json.num 2)]⟩ 2).2
        <:+ [Json.num 1, Json.num 2] ∧
    (get_recent_activity ⟨true, some [some (Json.num 1), none, some (Json.num 2)]⟩ 0).2
        = [Json.num 1, Json.num 2] :=
  ⟨((recent_limit_window true [some (Json.num 1), none, some (Json.num 2)] 2).1
      (by decide)).2.2,
   (recent_limit_window true [some (Json.num 1), none, some (Json.num 2)] 2).2⟩

/-- Claim C5 counterexample: a file holding a malformed line and the valid
non-object JSON line `[]`; `get_activity_for_issue 1` raises
`AttributeError` rather than returning normally, so "returns normally
without raising" does not hold for every content containing malformed
lines. -/
theorem reads_raise_with_malformed_present :
    (get_activity_for_issue ⟨true, some [none, some (.arr [])]⟩ 1).2
      = .error .attributeError :=
  rfl

/-- Claim C5 amended: malformed lines are excluded from the results of all
three read functions — every returned record comes from a line that parses;
`get_recent_activity` never raises, and the two filter queries return
normally whenever every parseable line is a JSON object (a parseable
non-object line, not a malformed one, is what makes them raise). -/
theorem malformed_lines_excluded (dir : Bool) (lines : List (Option Json))
    (limit n : Int) (a : String)
    (h : ∀ v ∈ lines.filterMap id, isObj v = true) :
    (get_recent_activity ⟨dir, some lines⟩ limit).2 ⊆ lines.filterMap id ∧
    ((get_activity_for_issue ⟨dir, some lines⟩ n).2 = .ok (recordsForIssueSpec n lines) ∧
      recordsForIssueSpec n lines ⊆ lines.filterMap id) ∧
    ((get_activity_for_agent ⟨dir, some lines⟩ a).2 = .ok (recordsForAgentSpec a lines) ∧
      recordsForAgentSpec a lines ⊆ lines.filterMap id) := by
  refine ⟨?_, ⟨?_, ?_⟩, ⟨?_, ?_⟩⟩
  · obtain ⟨k, hk⟩ := pySliceFrom_is_drop lines (-limit)
    simp only [get_recent_activity, hk]
    exact (filterMap_drop_suffix id lines k).subset
  · simpa [get_activity_for_issue] using scanIssue_eq_spec n lines h
  · exact (List.filter_sublist _).subset
  · simpa [get_activity_for_agent] using scanAgent_eq_spec a lines h
  · exact (List.filter_sublist _).subset

/-- Claim C5 witness: a concrete file with a malformed line between two
records; the issue query skips the malformed line and returns the matching
record. -/
theorem malformed_lines_excluded_witness :
    (get_activity_for_issue ⟨true, some [none, some (entryJson "t" "claim" 1 "z" ""),
        some (entryJson "u" "done" 2 "z" "")]⟩ 1).2
      = .ok [entryJson "t" "claim" 1 "z" ""] :=
  ((malformed_lines_excluded true [none, some (entryJson "t" "claim" 1 "z" ""),
      some (entryJson "u" "done" 2 "z" "")] 3 1 "z" (by decide)).2.1.1).trans rfl

/-- Claim C6: when the log file does not exist, all three read functions
return the empty sequence (and leave the state unchanged) for every
argument, raising no error. -/
theorem missing_file_reads_empty (dir : Bool) (limit n : Int) (a : String) :
    get_recent_activity ⟨dir, none⟩ limit = (⟨dir, none⟩, []) ∧
    get_activity_for_issue ⟨dir, none⟩ n = (⟨dir, none⟩, .ok []) ∧
    get_activity_for_agent ⟨dir, none⟩ a = (⟨dir, none⟩, .ok []) :=
  ⟨rfl, rfl, rfl⟩

/-- Claim C7: `log_activity` raises exactly when the issue number is not
integer-coercible, and on a coercible issue number it appends exactly one
JSON-encoded line (the dumped record) to the log file and returns the
constructed record. -/
theorem log_activity_error_iff_uncoercible (fs : FS) (now action isn agent details : String) :
    ((log_activity fs now action isn agent details).2 = .error .valueError
        ↔ pyIntOfString isn = none) ∧
    (∀ n : Int, pyIntOfString isn = some n →
      (log_activity fs now action isn agent details).2
          = .ok (entryJson now action n agent details) ∧
      (log_activity fs now action isn agent details).1.logFile
          = some ((fs.logFile.getD [])
              ++ [some (entryJson now action n agent details)])) := by
  constructor
  · cases h : pyIntOfString isn with
    | none => simp [log_activity, h]
    | some m => simp [log_activity, h]
  · intro n hn
    constructor <;> simp [log_activity, hn]

/-- Claim C7 witness: a concrete successful call appends one line and
returns the record. -/
theorem log_activity_error_iff_uncoercible_witness :
    (log_activity ⟨false, none⟩ "t" "claim" "22" "agent-1" "d").2
        = .ok (entryJson "t" "claim" 22 "agent-1" "d") ∧
    (log_activity ⟨false, none⟩ "t" "claim" "22" "agent-1" "d").1.logFile
        = some [some (entryJson "t" "claim" 22 "agent-1" "d")] :=
  ((log_activity_error_iff_uncoercible ⟨false, none⟩ "t" "claim" "22" "agent-1" "d").2
    22 (by decide))

/-- Claim C8: every record `log_activity` successfully writes is a JSON
object with exactly the five fields timestamp, action, issue_number,
agent_id and details, in that order, with an integer issue_number; the CLI
defaults `agent_id` to "unknown" and `details` to the empty string when
omitted. -/
theorem record_shape_and_defaults (fs : FS) (now prog action isn agent details : String)
    (n : Int) (hn : pyIntOfString isn = some n) :
    (log_activity fs now action isn agent details).1.logFile
        = some ((fs.logFile.getD []) ++ [some (entryJson now action n agent details)]) ∧
    isObj (entryJson now action n agent details) = true ∧
    jsonKeys (entryJson now action n agent details)
        = ["timestamp", "action", "issue_number", "agent_id", "details"] ∧
    jsonField (entryJson now action n agent details) "issue_number" = some (.num n) ∧
    (cliRun fs now [prog, action, isn]).2
        = .ok (some (entryJson now action n "unknown" "")) ∧
    (cliRun fs now [prog, action, isn, agent]).2
        = .ok (some (entryJson now action n agent "")) := by
  refine ⟨?_, rfl, rfl, rfl, ?_, ?_⟩
  · simp [log_activity, hn]
  · simp [cliRun, log_activity, hn, Except.map]
  · simp [cliRun, log_activity, hn, Except.map]

/-- Claim C8 witness: a concrete three-argument CLI invocation writes the
record with agent_id "unknown" and empty details. -/
theorem record_shape_and_defaults_witness :
    (cliRun ⟨false, none⟩ "t" ["prog", "claim", "22"]).2
      = .ok (some (entryJson "t" "claim" 22 "unknown" "")) :=
  (record_shape_and_defaults ⟨false, none⟩ "t" "prog" "claim" "22" "a" "d" 22
    (by decide)).2.2.2.2.1

/-- Claim C9: the three read functions leave the filesystem state — in
particular the log file's contents — unchanged. -/
theorem reads_leave_state_unchanged (fs : FS) (limit n : Int) (a : String) :
    (get_recent_activity fs limit).1 = fs ∧
    (get_activity_for_issue fs n).1 = fs ∧
    (get_activity_for_agent fs a).1 = fs := by
  cases fs with
  | mk d f => cases f <;> exact ⟨rfl, rfl, rfl⟩

/-- Claim C10: when the issue number is not integer-coercible the error is
raised before the file is opened for writing: the log file is exactly as
before the call, while the log directory has been created. -/
theorem failed_log_leaves_file_unchanged (fs : FS) (now action isn agent details : String)
    (hn : pyIntOfString isn = none) :
    (log_activity fs now action isn agent details).2 = .error .valueError ∧
    (log_activity fs now action isn agent details).1.logFile = fs.logFile ∧
    (log_activity fs now action isn agent details).1.logDirExists = true := by
  simp [log_activity, hn]

/-- Claim C10 witness: a concrete failing call on the issue number "abc"
leaves the (empty) log file as it was and creates the directory. -/
theorem failed_log_leaves_file_unchanged_witness :
    (log_activity ⟨false, some []⟩ "t" "claim" "abc" "a" "d").2 = .error .valueError ∧
    (log_activity ⟨false, some []⟩ "t" "claim" "abc" "a" "d").1.logFile = some [] ∧
    (log_activity ⟨false, some []⟩ "t" "claim" "abc" "a" "d").1.logDirExists = true :=
  failed_log_leaves_file_unchanged ⟨false, some []⟩ "t" "claim" "abc" "a" "d" (by decide)
